import Mathlib

/-!
Verification of `rocket_relations` (src/rocket_relations/ideal.py).

The module offers two pure evaluators over scalars or 1-D numeric arrays:
`solve_cstar` (characteristic velocity) and `solve_cf` (thrust coefficient).
Each validates its inputs in a fixed order (type checks, then domain checks)
and then evaluates a closed-form expression elementwise.

Embedding choices:
* a Python scalar-or-array argument is a `Value`, a list of elements, each
  either a numeric value (modelled as a rational, since every concrete input
  in the repository is a decimal literal) or a non-numeric text value;
* `numpy` float comparisons on inputs become exact rational comparisons;
* the floating-point formulas become the corresponding real-number
  expressions (`Real.sqrt`, real exponentiation `Real.rpow`);
* a raised `TypeError` / `ValueError` and the broadcast failure become an
  `Except.error` carrying the error kind and message;
* 1-D `numpy` broadcasting (all lengths equal to the common length or 1)
  is modelled by `bcastOK` / `stretch`.
-/

namespace RocketRelations

/-- One element of a Python scalar-or-array argument: either a numeric value
or a non-numeric (text) value. -/
inductive Elem where
  | num (q : ℚ)
  | txt (s : String)
deriving DecidableEq

/-- A Python argument: a scalar is a one-element list, an array is its list
of elements. -/
abbrev Value := List Elem

def Elem.isNum : Elem → Bool
  | .num _ => true
  | .txt _ => false

/-- Models `np.issubdtype(np.array(value).dtype, np.number)`: the array built from
the value has a numeric dtype exactly when every element is numeric. -/
def isNumericValue (v : Value) : Bool := v.all Elem.isNum

/-- Models `np.asarray(value, dtype=float)`: extract the numeric elements (called
only after the type check, when every element is numeric). -/
def toFloats (v : Value) : List ℚ :=
  v.filterMap fun e => match e with | .num q => some q | .txt _ => none

/-- The kind of failure: `TypeError` (non-numeric input), `ValueError`
(domain violation), and the broadcast failure of the array layer. -/
inductive ErrKind where
  | typeKind
  | domainKind
  | shapeKind
deriving DecidableEq

structure RRError where
  kind : ErrKind
  msg : String
deriving DecidableEq

/-- The type-check loop shared by both functions: walk the named arguments
in order and fail on the first whose value is not numeric, with the message
`f"{name} must be numeric"`. -/
def typeCheck : List (String × Value) → Option RRError
  | [] => none
  | (name, v) :: rest =>
    if isNumericValue v then typeCheck rest
    else some ⟨.typeKind, name ++ " must be numeric"⟩

/-- Sequencing of checks: the first error wins. -/
def firstErr (a b : Option RRError) : Option RRError :=
  match a with
  | some e => some e
  | none => b

/-- Models `if np.any(gamma <= 1) or np.any(gamma >= 1.8): raise ValueError(...)`. -/
def check_gamma (g : List ℚ) : Option RRError :=
  if (g.any fun x => decide (x ≤ 1)) || (g.any fun x => decide (9/5 ≤ x)) then
    some ⟨.domainKind, "gamma must be > 1 and < 1.8"⟩
  else none

/-- Models `if np.any(v <= 0): raise ValueError(msg)`, used for `Rs` and `T0`. -/
def check_pos (v : List ℚ) (msg : String) : Option RRError :=
  if v.any fun x => decide (x ≤ 0) then some ⟨.domainKind, msg⟩ else none

/-- Models `if np.any((v < 0) | (v >= 1)): raise ValueError(msg)`, used for the two
pressure ratios of `solve_cf`. -/
def check_unit_interval (v : List ℚ) (msg : String) : Option RRError :=
  if v.any fun x => decide (x < 0) || decide (1 ≤ x) then
    some ⟨.domainKind, msg⟩
  else none

/-- Models `if np.any(v < 1): raise ValueError(...)`, for the area ratio. -/
def check_area (v : List ℚ) : Option RRError :=
  if v.any fun x => decide (x < 1) then
    some ⟨.domainKind, "ratio_Ae_Astar must be >= 1"⟩
  else none

/-- All validation of `solve_cstar`, in source order: type checks for
`gamma`, `Rs`, `T0`, then the domain checks for `gamma`, `Rs`, `T0`. -/
def validate_cstar (gamma Rs T0 : Value) : Option RRError :=
  firstErr (typeCheck [("gamma", gamma), ("Rs", Rs), ("T0", T0)])
    (firstErr (check_gamma (toFloats gamma))
      (firstErr (check_pos (toFloats Rs) "Specific gas constant must be > 0")
        (check_pos (toFloats T0) "Stagnation temperature must be > 0")))

/-- All validation of `solve_cf`, in source order: type checks for `gamma`,
`ratio_pe_p0`, `ratio_pa_p0`, `ratio_Ae_Astar`, then the domain checks in
the same argument order. -/
def validate_cf (gamma ratio_pe_p0 ratio_pa_p0 ratio_Ae_Astar : Value) :
    Option RRError :=
  firstErr (typeCheck [("gamma", gamma), ("ratio_pe_p0", ratio_pe_p0),
      ("ratio_pa_p0", ratio_pa_p0), ("ratio_Ae_Astar", ratio_Ae_Astar)])
    (firstErr (check_gamma (toFloats gamma))
      (firstErr (check_unit_interval (toFloats ratio_pe_p0)
          "ratio_pe_p0 must be in [0, 1)")
        (firstErr (check_unit_interval (toFloats ratio_pa_p0)
            "ratio_pa_p0 must be in [0, 1)")
          (check_area (toFloats ratio_Ae_Astar)))))

/-- The elementwise formula of `solve_cstar`:
`sqrt((1/gamma) * ((gamma+1)/2) ** ((gamma+1)/(gamma-1)) * Rs * T0)`. -/
noncomputable def cstar_formula (gamma Rs T0 : ℝ) : ℝ :=
  Real.sqrt ((1 / gamma) * ((gamma + 1) / 2) ^ ((gamma + 1) / (gamma - 1)) * Rs * T0)

/-- The expression under the square root in `solve_cf`, exactly as the
source parenthesises it: the pressure-thrust term
`(ratio_pe_p0 - ratio_pa_p0) * ratio_Ae_Astar` is part of the radicand. -/
noncomputable def cf_radicand (gamma ratio_pe_p0 ratio_pa_p0 ratio_Ae_Astar : ℝ) : ℝ :=
  (2 * gamma ^ (2 : ℕ) / (gamma - 1))
    * (2 / (gamma + 1)) ^ ((gamma + 1) / (gamma - 1))
    * (1 - ratio_pe_p0 ^ ((gamma - 1) / gamma))
    + (ratio_pe_p0 - ratio_pa_p0) * ratio_Ae_Astar

/-- The elementwise formula of `solve_cf`. -/
noncomputable def cf_formula (gamma ratio_pe_p0 ratio_pa_p0 ratio_Ae_Astar : ℝ) : ℝ :=
  Real.sqrt (cf_radicand gamma ratio_pe_p0 ratio_pa_p0 ratio_Ae_Astar)

/-- Common broadcast length of 1-D shapes. -/
def bcastLen (ls : List Nat) : Nat := ls.foldr max 0

/-- 1-D `numpy` broadcasting succeeds when every length equals the common
length or is 1. -/
def bcastOK (ls : List Nat) : Bool :=
  ls.all fun l => decide (l = bcastLen ls) || decide (l = 1)

/-- Stretch a length-1 array to the broadcast length. -/
def stretch (v : List ℚ) (n : Nat) : List ℚ :=
  if v.length = 1 then List.replicate n v.headI else v

/-- Models `solve_cstar(gamma, Rs, T0)`: validate, then evaluate the formula
elementwise over the broadcast inputs. -/
noncomputable def solve_cstar (gamma Rs T0 : Value) : Except RRError (List ℝ) :=
  match validate_cstar gamma Rs T0 with
  | some e => .error e
  | none =>
    let g := toFloats gamma
    let r := toFloats Rs
    let t := toFloats T0
    let n := bcastLen [g.length, r.length, t.length]
    if bcastOK [g.length, r.length, t.length] then
      .ok ((List.range n).map fun i =>
        cstar_formula (((stretch g n).getD i 0 : ℚ) : ℝ)
          (((stretch r n).getD i 0 : ℚ) : ℝ) (((stretch t n).getD i 0 : ℚ) : ℝ))
    else
      .error ⟨.shapeKind, "operands could not be broadcast together"⟩

/-- Models `solve_cf(gamma, ratio_pe_p0, ratio_pa_p0, ratio_Ae_Astar)`: validate,
then evaluate the formula elementwise over the broadcast inputs. -/
noncomputable def solve_cf (gamma ratio_pe_p0 ratio_pa_p0 ratio_Ae_Astar : Value) :
    Except RRError (List ℝ) :=
  match validate_cf gamma ratio_pe_p0 ratio_pa_p0 ratio_Ae_Astar with
  | some e => .error e
  | none =>
    let g := toFloats gamma
    let pe := toFloats ratio_pe_p0
    let pa := toFloats ratio_pa_p0
    let ar := toFloats ratio_Ae_Astar
    let n := bcastLen [g.length, pe.length, pa.length, ar.length]
    if bcastOK [g.length, pe.length, pa.length, ar.length] then
      .ok ((List.range n).map fun i =>
        cf_formula (((stretch g n).getD i 0 : ℚ) : ℝ)
          (((stretch pe n).getD i 0 : ℚ) : ℝ) (((stretch pa n).getD i 0 : ℚ) : ℝ)
          (((stretch ar n).getD i 0 : ℚ) : ℝ))
    else
      .error ⟨.shapeKind, "operands could not be broadcast together"⟩

/-- The validation order exactly as §4.1 of the specification words it:
the three type checks for `gamma`, `Rs`, `T0` in argument order, then the
three domain checks in the order `gamma`, `Rs`, `T0`, each reporting the
first violated constraint. -/
def spec_check_order_cstar (gamma Rs T0 : Value) : Option RRError :=
  if isNumericValue gamma = false then some ⟨.typeKind, "gamma must be numeric"⟩
  else if isNumericValue Rs = false then some ⟨.typeKind, "Rs must be numeric"⟩
  else if isNumericValue T0 = false then some ⟨.typeKind, "T0 must be numeric"⟩
  else if (toFloats gamma).any fun x => decide (¬ (1 < x ∧ x < 9/5)) then
    some ⟨.domainKind, "gamma must be > 1 and < 1.8"⟩
  else if (toFloats Rs).any fun x => decide (¬ (0 < x)) then
    some ⟨.domainKind, "Specific gas constant must be > 0"⟩
  else if (toFloats T0).any fun x => decide (¬ (0 < x)) then
    some ⟨.domainKind, "Stagnation temperature must be > 0"⟩
  else none

/-- The validation order exactly as §4.2 of the specification words it:
the four type checks in argument order, then the four domain checks in the
order `gamma`, `ratio_pe_p0`, `ratio_pa_p0`, `ratio_Ae_Astar`. -/
def spec_check_order_cf (gamma ratio_pe_p0 ratio_pa_p0 ratio_Ae_Astar : Value) :
    Option RRError :=
  if isNumericValue gamma = false then some ⟨.typeKind, "gamma must be numeric"⟩
  else if isNumericValue ratio_pe_p0 = false then
    some ⟨.typeKind, "ratio_pe_p0 must be numeric"⟩
  else if isNumericValue ratio_pa_p0 = false then
    some ⟨.typeKind, "ratio_pa_p0 must be numeric"⟩
  else if isNumericValue ratio_Ae_Astar = false then
    some ⟨.typeKind, "ratio_Ae_Astar must be numeric"⟩
  else if (toFloats gamma).any fun x => decide (¬ (1 < x ∧ x < 9/5)) then
    some ⟨.domainKind, "gamma must be > 1 and < 1.8"⟩
  else if (toFloats ratio_pe_p0).any fun x => decide (¬ (0 ≤ x ∧ x < 1)) then
    some ⟨.domainKind, "ratio_pe_p0 must be in [0, 1)"⟩
  else if (toFloats ratio_pa_p0).any fun x => decide (¬ (0 ≤ x ∧ x < 1)) then
    some ⟨.domainKind, "ratio_pa_p0 must be in [0, 1)"⟩
  else if (toFloats ratio_Ae_Astar).any fun x => decide (¬ (1 ≤ x)) then
    some ⟨.domainKind, "ratio_Ae_Astar must be >= 1"⟩
  else none

/-- Some element of some input of `solve_cstar` violates its type or domain
constraint. -/
def violates_cstar (gamma Rs T0 : Value) : Prop :=
  (∃ e ∈ gamma, e.isNum = false) ∨ (∃ e ∈ Rs, e.isNum = false)
    ∨ (∃ e ∈ T0, e.isNum = false)
    ∨ (∃ x ∈ toFloats gamma, ¬ (1 < x ∧ x < 9/5))
    ∨ (∃ x ∈ toFloats Rs, ¬ (0 < x)) ∨ (∃ x ∈ toFloats T0, ¬ (0 < x))

/-- Some element of some input of `solve_cf` violates its type or domain
constraint. -/
def violates_cf (gamma ratio_pe_p0 ratio_pa_p0 ratio_Ae_Astar : Value) : Prop :=
  (∃ e ∈ gamma, e.isNum = false) ∨ (∃ e ∈ ratio_pe_p0, e.isNum = false)
    ∨ (∃ e ∈ ratio_pa_p0, e.isNum = false) ∨ (∃ e ∈ ratio_Ae_Astar, e.isNum = false)
    ∨ (∃ x ∈ toFloats gamma, ¬ (1 < x ∧ x < 9/5))
    ∨ (∃ x ∈ toFloats ratio_pe_p0, ¬ (0 ≤ x ∧ x < 1))
    ∨ (∃ x ∈ toFloats ratio_pa_p0, ¬ (0 ≤ x ∧ x < 1))
    ∨ (∃ x ∈ toFloats ratio_Ae_Astar, ¬ (1 ≤ x))

/-- A single invocation of the library API. -/
inductive ApiCall where
  | cstar (gamma Rs T0 : Value)
  | cf (gamma ratio_pe_p0 ratio_pa_p0 ratio_Ae_Astar : Value)

/-- Dispatch one invocation. -/
noncomputable def runCall : ApiCall → Except RRError (List ℝ)
  | .cstar g r t => solve_cstar g r t
  | .cf g pe pa ar => solve_cf g pe pa ar

/-- A sequence of invocations and its sequence of results. The library is
stateless, so a trace is just the list of per-call results. -/
noncomputable def runTrace (calls : List ApiCall) : List (Except RRError (List ℝ)) :=
  calls.map runCall

/-! ### Lemmas about the validation machinery -/

theorem firstErr_none_iff (a b : Option RRError) :
    firstErr a b = none ↔ a = none ∧ b = none := by
  cases a <;> simp [firstErr]

theorem firstErr_some_left {a : RRError} (b : Option RRError) :
    firstErr (some a) b = some a := rfl

theorem firstErr_none_left (b : Option RRError) : firstErr none b = b := rfl

theorem typeCheck_eq_none_iff (l : List (String × Value)) :
    typeCheck l = none ↔ ∀ p ∈ l, isNumericValue p.2 = true := by
  induction l with
  | nil => simp [typeCheck]
  | cons hd tl ih =>
    obtain ⟨name, v⟩ := hd
    by_cases h : isNumericValue v
    · simp [typeCheck, h, ih]
    · simp [typeCheck, h]

theorem typeCheck_some_of_mem (l : List (String × Value))
    (h : ∃ p ∈ l, isNumericValue p.2 = false) :
    ∃ p ∈ l, isNumericValue p.2 = false ∧
      typeCheck l = some ⟨.typeKind, p.1 ++ " must be numeric"⟩ := by
  induction l with
  | nil => simp at h
  | cons hd tl ih =>
    obtain ⟨name, v⟩ := hd
    by_cases hv : isNumericValue v
    · have htl : ∃ p ∈ tl, isNumericValue p.2 = false := by
        rcases h with ⟨p, hp, hfalse⟩
        rcases List.mem_cons.mp hp with rfl | hmem
        · exact absurd hfalse (by simp [hv])
        · exact ⟨p, hmem, hfalse⟩
      rcases ih htl with ⟨p, hmem, hfalse, heq⟩
      exact ⟨p, List.mem_cons_of_mem _ hmem, hfalse, by simp [typeCheck, hv, heq]⟩
    · refine ⟨(name, v), List.mem_cons_self _ _, by simpa using hv, ?_⟩
      simp [typeCheck, hv]

theorem isNumericValue_map_num (l : List ℚ) :
    isNumericValue (l.map Elem.num) = true := by
  simp [isNumericValue, List.all_map, Function.comp, Elem.isNum]

theorem toFloats_map_num (l : List ℚ) : toFloats (l.map Elem.num) = l := by
  induction l with
  | nil => rfl
  | cons hd tl ih => simpa [toFloats, List.filterMap_cons] using ih

theorem any_orb (l : List ℚ) (p q : ℚ → Bool) :
    (l.any fun x => p x || q x) = (l.any p || l.any q) := by
  induction l with
  | nil => rfl
  | cons hd tl ih =>
    simp only [List.any_cons, ih]
    cases p hd <;> cases q hd <;> cases tl.any p <;> cases tl.any q <;> rfl

theorem check_gamma_eq_none_iff (l : List ℚ) :
    check_gamma l = none ↔ ∀ x ∈ l, 1 < x ∧ x < 9/5 := by
  rw [check_gamma]
  cases hc : ((l.any fun x => decide (x ≤ 1)) || (l.any fun x => decide (9/5 ≤ x))) with
  | false =>
    simp only [Bool.or_eq_false_iff, List.any_eq_false, decide_eq_true_eq, not_le] at hc
    simpa using fun x hx => ⟨hc.1 x hx, hc.2 x hx⟩
  | true =>
    simp only [if_true, reduceCtorEq, false_iff]
    intro hall
    rcases (by simpa using hc :
        (∃ x ∈ l, x ≤ 1) ∨ ∃ x ∈ l, 9/5 ≤ x) with ⟨x, hx, h1⟩ | ⟨x, hx, h2⟩
    · exact absurd (hall x hx).1 (not_lt.mpr h1)
    · exact absurd (hall x hx).2 (not_lt.mpr h2)

theorem check_pos_eq_none_iff (l : List ℚ) (msg : String) :
    check_pos l msg = none ↔ ∀ x ∈ l, 0 < x := by
  simp [check_pos, not_le]

theorem check_unit_interval_eq_none_iff (l : List ℚ) (msg : String) :
    check_unit_interval l msg = none ↔ ∀ x ∈ l, 0 ≤ x ∧ x < 1 := by
  rw [check_unit_interval]
  cases hc : (l.any fun x => decide (x < 0) || decide (1 ≤ x)) with
  | false =>
    simp only [List.any_eq_false, Bool.or_eq_true, decide_eq_true_eq, not_or,
      not_lt, not_le] at hc
    simpa using hc
  | true =>
    simp only [if_true, reduceCtorEq, false_iff]
    intro hall
    rcases (by simpa using hc : ∃ x ∈ l, x < 0 ∨ 1 ≤ x) with ⟨x, hx, h1 | h2⟩
    · exact absurd (hall x hx).1 (not_le.mpr h1)
    · exact absurd (hall x hx).2 (not_lt.mpr h2)

theorem check_area_eq_none_iff (l : List ℚ) :
    check_area l = none ↔ ∀ x ∈ l, 1 ≤ x := by
  simp [check_area, not_lt]

theorem check_gamma_eq_some (l : List ℚ) (h : ∃ x ∈ l, x ≤ 1 ∨ 9/5 ≤ x) :
    check_gamma l = some ⟨.domainKind, "gamma must be > 1 and < 1.8"⟩ := by
  have hc : ((l.any fun x => decide (x ≤ 1)) || (l.any fun x => decide (9/5 ≤ x))) = true := by
    simp only [Bool.or_eq_true, List.any_eq_true, decide_eq_true_eq]
    rcases h with ⟨x, hx, h1 | h2⟩
    · exact Or.inl ⟨x, hx, h1⟩
    · exact Or.inr ⟨x, hx, h2⟩
  simp [check_gamma, hc]

theorem validate_cstar_eq_none_iff (gamma Rs T0 : Value) :
    validate_cstar gamma Rs T0 = none ↔
      (isNumericValue gamma = true ∧ isNumericValue Rs = true ∧ isNumericValue T0 = true)
      ∧ (∀ x ∈ toFloats gamma, 1 < x ∧ x < 9/5)
      ∧ (∀ x ∈ toFloats Rs, 0 < x) ∧ (∀ x ∈ toFloats T0, 0 < x) := by
  simp [validate_cstar, firstErr_none_iff, typeCheck_eq_none_iff,
    check_gamma_eq_none_iff, check_pos_eq_none_iff, and_assoc]

theorem validate_cf_eq_none_iff (gamma ratio_pe_p0 ratio_pa_p0 ratio_Ae_Astar : Value) :
    validate_cf gamma ratio_pe_p0 ratio_pa_p0 ratio_Ae_Astar = none ↔
      (isNumericValue gamma = true ∧ isNumericValue ratio_pe_p0 = true
        ∧ isNumericValue ratio_pa_p0 = true ∧ isNumericValue ratio_Ae_Astar = true)
      ∧ (∀ x ∈ toFloats gamma, 1 < x ∧ x < 9/5)
      ∧ (∀ x ∈ toFloats ratio_pe_p0, 0 ≤ x ∧ x < 1)
      ∧ (∀ x ∈ toFloats ratio_pa_p0, 0 ≤ x ∧ x < 1)
      ∧ (∀ x ∈ toFloats ratio_Ae_Astar, 1 ≤ x) := by
  simp [validate_cf, firstErr_none_iff, typeCheck_eq_none_iff,
    check_gamma_eq_none_iff, check_unit_interval_eq_none_iff,
    check_area_eq_none_iff, and_assoc]

theorem solve_cstar_eq_error {gamma Rs T0 : Value} {e : RRError}
    (h : validate_cstar gamma Rs T0 = some e) :
    solve_cstar gamma Rs T0 = .error e := by
  simp [solve_cstar, h]

theorem solve_cf_eq_error {gamma ratio_pe_p0 ratio_pa_p0 ratio_Ae_Astar : Value}
    {e : RRError}
    (h : validate_cf gamma ratio_pe_p0 ratio_pa_p0 ratio_Ae_Astar = some e) :
    solve_cf gamma ratio_pe_p0 ratio_pa_p0 ratio_Ae_Astar = .error e := by
  simp [solve_cf, h]

theorem validate_cstar_scalar {γ r t : ℚ} (h1 : 1 < γ) (h2 : γ < 9/5)
    (hr : 0 < r) (ht : 0 < t) :
    validate_cstar [.num γ] [.num r] [.num t] = none := by
  rw [validate_cstar_eq_none_iff]
  refine ⟨⟨?_, ?_, ?_⟩, ?_, ?_, ?_⟩ <;>
    simp [toFloats, isNumericValue, Elem.isNum, h1, h2, hr, ht]

theorem validate_cf_scalar {γ pe pa ar : ℚ} (h1 : 1 < γ) (h2 : γ < 9/5)
    (hpe0 : 0 ≤ pe) (hpe1 : pe < 1) (hpa0 : 0 ≤ pa) (hpa1 : pa < 1) (har : 1 ≤ ar) :
    validate_cf [.num γ] [.num pe] [.num pa] [.num ar] = none := by
  rw [validate_cf_eq_none_iff]
  refine ⟨⟨?_, ?_, ?_, ?_⟩, ?_, ?_, ?_, ?_⟩ <;>
    simp [toFloats, isNumericValue, Elem.isNum, h1, h2, hpe0, hpe1, hpa0, hpa1, har]

theorem solve_cstar_scalar {γ r t : ℚ} (h1 : 1 < γ) (h2 : γ < 9/5)
    (hr : 0 < r) (ht : 0 < t) :
    solve_cstar [.num γ] [.num r] [.num t] =
      .ok [cstar_formula (γ : ℝ) (r : ℝ) (t : ℝ)] := by
  unfold solve_cstar
  rw [validate_cstar_scalar h1 h2 hr ht]
  simp [toFloats, bcastLen, bcastOK, stretch, List.range_succ]

theorem solve_cf_scalar {γ pe pa ar : ℚ} (h1 : 1 < γ) (h2 : γ < 9/5)
    (hpe0 : 0 ≤ pe) (hpe1 : pe < 1) (hpa0 : 0 ≤ pa) (hpa1 : pa < 1) (har : 1 ≤ ar) :
    solve_cf [.num γ] [.num pe] [.num pa] [.num ar] =
      .ok [cf_formula (γ : ℝ) (pe : ℝ) (pa : ℝ) (ar : ℝ)] := by
  unfold solve_cf
  rw [validate_cf_scalar h1 h2 hpe0 hpe1 hpa0 hpa1 har]
  simp [toFloats, bcastLen, bcastOK, stretch, List.range_succ]

theorem firstErr_ite (c : Prop) [Decidable c] (e : RRError) (b : Option RRError) :
    firstErr (if c then some e else none) b = if c then some e else b := by
  split <;> rfl

theorem any_congr (l : List ℚ) (p q : ℚ → Bool) (h : ∀ x, p x = q x) :
    l.any p = l.any q := by
  induction l with
  | nil => rfl
  | cons hd tl ih => simp [List.any_cons, h hd, ih]

theorem gamma_pointwise (x : ℚ) :
    decide (¬ (1 < x ∧ x < 9/5)) = (decide (x ≤ 1) || decide (9/5 ≤ x)) := by
  rw [decide_eq_decide.mpr (by rw [not_and_or, not_lt, not_lt]), Bool.decide_or]

theorem pos_pointwise (x : ℚ) : decide (¬ (0 < x)) = decide (x ≤ 0) := by
  rw [decide_eq_decide.mpr not_lt]

theorem unit_pointwise (x : ℚ) :
    decide (¬ (0 ≤ x ∧ x < 1)) = (decide (x < 0) || decide (1 ≤ x)) := by
  rw [decide_eq_decide.mpr (by rw [not_and_or, not_le, not_lt]), Bool.decide_or]

theorem area_pointwise (x : ℚ) : decide (¬ (1 ≤ x)) = decide (x < 1) := by
  rw [decide_eq_decide.mpr not_le]

/-! ### The claims -/

/-- Claim C3: if every input is numeric and some element of `gamma` lies
outside the open interval (1, 1.8) (that is, is ≤ 1 or ≥ 9/5), then both
`solve_cstar` and `solve_cf` fail with the `DomainKind` error
"gamma must be > 1 and < 1.8" and produce no result. -/
theorem claim_C3_gamma_domain_error (gvals : List ℚ) (Rs T0 pe pa ar : Value)
    (hbad : ∃ x ∈ gvals, x ≤ 1 ∨ 9/5 ≤ x)
    (hRs : isNumericValue Rs = true) (hT0 : isNumericValue T0 = true)
    (hpe : isNumericValue pe = true) (hpa : isNumericValue pa = true)
    (har : isNumericValue ar = true) :
    solve_cstar (gvals.map Elem.num) Rs T0 =
        .error ⟨.domainKind, "gamma must be > 1 and < 1.8"⟩
      ∧ solve_cf (gvals.map Elem.num) pe pa ar =
        .error ⟨.domainKind, "gamma must be > 1 and < 1.8"⟩ := by
  have htc1 : typeCheck [("gamma", gvals.map Elem.num), ("Rs", Rs), ("T0", T0)] = none :=
    (typeCheck_eq_none_iff _).mpr (by simp [isNumericValue_map_num, hRs, hT0])
  have htc2 : typeCheck [("gamma", gvals.map Elem.num), ("ratio_pe_p0", pe),
      ("ratio_pa_p0", pa), ("ratio_Ae_Astar", ar)] = none :=
    (typeCheck_eq_none_iff _).mpr (by simp [isNumericValue_map_num, hpe, hpa, har])
  constructor
  · apply solve_cstar_eq_error
    rw [validate_cstar, htc1, firstErr_none_left, toFloats_map_num,
      check_gamma_eq_some _ hbad, firstErr_some_left]
  · apply solve_cf_eq_error
    rw [validate_cf, htc2, firstErr_none_left, toFloats_map_num,
      check_gamma_eq_some _ hbad, firstErr_some_left]

theorem claim_C3_witness :
    solve_cstar ([(2:ℚ)].map Elem.num) [Elem.num 350] [Elem.num 3500] =
        .error ⟨.domainKind, "gamma must be > 1 and < 1.8"⟩
      ∧ solve_cf ([(2:ℚ)].map Elem.num) [Elem.num 0.0125] [Elem.num 0.02] [Elem.num 10] =
        .error ⟨.domainKind, "gamma must be > 1 and < 1.8"⟩ :=
  claim_C3_gamma_domain_error [(2:ℚ)] [Elem.num 350] [Elem.num 3500]
    [Elem.num 0.0125] [Elem.num 0.02] [Elem.num 10]
    ⟨2, by simp, Or.inr (by norm_num)⟩
    (by simp [isNumericValue, Elem.isNum]) (by simp [isNumericValue, Elem.isNum])
    (by simp [isNumericValue, Elem.isNum]) (by simp [isNumericValue, Elem.isNum])
    (by simp [isNumericValue, Elem.isNum])

/-- Claim C4: each solver runs its checks in the fixed order of §4 — all
type checks (in argument order) before any domain check, and the domain
checks in the order `gamma`, `Rs`, `T0` for `solve_cstar` and `gamma`,
`ratio_pe_p0`, `ratio_pa_p0`, `ratio_Ae_Astar` for `solve_cf` — so the
validation result always equals the first violated constraint under the
spec ordering (`spec_check_order_cstar` / `spec_check_order_cf`). -/
theorem claim_C4_check_order :
    (∀ gamma Rs T0 : Value,
      validate_cstar gamma Rs T0 = spec_check_order_cstar gamma Rs T0)
    ∧ ∀ gamma ratio_pe_p0 ratio_pa_p0 ratio_Ae_Astar : Value,
      validate_cf gamma ratio_pe_p0 ratio_pa_p0 ratio_Ae_Astar
        = spec_check_order_cf gamma ratio_pe_p0 ratio_pa_p0 ratio_Ae_Astar := by
  constructor
  · intro gamma Rs T0
    by_cases h1 : isNumericValue gamma <;> by_cases h2 : isNumericValue Rs <;>
      by_cases h3 : isNumericValue T0 <;>
      simp [validate_cstar, spec_check_order_cstar, typeCheck, firstErr_ite,
        firstErr_none_left, firstErr_some_left, h1, h2, h3,
        check_gamma, check_pos, gamma_pointwise, pos_pointwise, any_orb]
  · intro gamma pe pa ar
    by_cases h1 : isNumericValue gamma <;> by_cases h2 : isNumericValue pe <;>
      by_cases h3 : isNumericValue pa <;> by_cases h4 : isNumericValue ar <;>
      simp [validate_cf, spec_check_order_cf, typeCheck, firstErr_ite,
        firstErr_none_left, firstErr_some_left, h1, h2, h3, h4,
        check_gamma, check_unit_interval, check_area,
        gamma_pointwise, unit_pointwise, area_pointwise, any_orb]

/-- Claim C5: if any element of any input of a call violates its type or
domain constraint, the whole call fails with an error; no per-element
masking or partial result is produced. -/
theorem claim_C5_whole_call_aborts :
    (∀ gamma Rs T0 : Value, violates_cstar gamma Rs T0 →
      ∃ e, solve_cstar gamma Rs T0 = .error e)
    ∧ ∀ gamma ratio_pe_p0 ratio_pa_p0 ratio_Ae_Astar : Value,
      violates_cf gamma ratio_pe_p0 ratio_pa_p0 ratio_Ae_Astar →
        ∃ e, solve_cf gamma ratio_pe_p0 ratio_pa_p0 ratio_Ae_Astar = .error e := by
  constructor
  · intro gamma Rs T0 hviol
    cases hv : validate_cstar gamma Rs T0 with
    | some e => exact ⟨e, solve_cstar_eq_error hv⟩
    | none =>
      exfalso
      rw [validate_cstar_eq_none_iff] at hv
      obtain ⟨⟨hng, hnr, hnt⟩, hg, hr, ht⟩ := hv
      simp only [isNumericValue, List.all_eq_true] at hng hnr hnt
      rcases hviol with ⟨e, he, hef⟩ | ⟨e, he, hef⟩ | ⟨e, he, hef⟩
        | ⟨x, hx, hxf⟩ | ⟨x, hx, hxf⟩ | ⟨x, hx, hxf⟩
      · exact absurd (hng e he) (by simp [hef])
      · exact absurd (hnr e he) (by simp [hef])
      · exact absurd (hnt e he) (by simp [hef])
      · exact hxf (hg x hx)
      · exact hxf (hr x hx)
      · exact hxf (ht x hx)
  · intro gamma pe pa ar hviol
    cases hv : validate_cf gamma pe pa ar with
    | some e => exact ⟨e, solve_cf_eq_error hv⟩
    | none =>
      exfalso
      rw [validate_cf_eq_none_iff] at hv
      obtain ⟨⟨hng, hnpe, hnpa, hnar⟩, hg, hpe, hpa, har⟩ := hv
      simp only [isNumericValue, List.all_eq_true] at hng hnpe hnpa hnar
      rcases hviol with ⟨e, he, hef⟩ | ⟨e, he, hef⟩ | ⟨e, he, hef⟩ | ⟨e, he, hef⟩
        | ⟨x, hx, hxf⟩ | ⟨x, hx, hxf⟩ | ⟨x, hx, hxf⟩ | ⟨x, hx, hxf⟩
      · exact absurd (hng e he) (by simp [hef])
      · exact absurd (hnpe e he) (by simp [hef])
      · exact absurd (hnpa e he) (by simp [hef])
      · exact absurd (hnar e he) (by simp [hef])
      · exact hxf (hg x hx)
      · exact hxf (hpe x hx)
      · exact hxf (hpa x hx)
      · exact hxf (har x hx)

theorem claim_C5_witness :
    ∃ e, solve_cstar [Elem.num 2] [Elem.num 350] [Elem.num 3500] = .error e :=
  claim_C5_whole_call_aborts.1 [Elem.num 2] [Elem.num 350] [Elem.num 3500]
    (Or.inr (Or.inr (Or.inr (Or.inl
      ⟨2, by simp [toFloats], by norm_num⟩))))

/-- Claim C6: a non-numeric element in any argument makes the call fail,
before any computation, with a `TypeKind` error whose message names the
offending argument. -/
theorem claim_C6_type_error_names_argument :
    (∀ gamma Rs T0 : Value,
      (∃ p ∈ [("gamma", gamma), ("Rs", Rs), ("T0", T0)], isNumericValue p.2 = false) →
      ∃ p ∈ [("gamma", gamma), ("Rs", Rs), ("T0", T0)], isNumericValue p.2 = false ∧
        solve_cstar gamma Rs T0 = .error ⟨.typeKind, p.1 ++ " must be numeric"⟩)
    ∧ ∀ gamma ratio_pe_p0 ratio_pa_p0 ratio_Ae_Astar : Value,
      (∃ p ∈ [("gamma", gamma), ("ratio_pe_p0", ratio_pe_p0),
          ("ratio_pa_p0", ratio_pa_p0), ("ratio_Ae_Astar", ratio_Ae_Astar)],
        isNumericValue p.2 = false) →
      ∃ p ∈ [("gamma", gamma), ("ratio_pe_p0", ratio_pe_p0),
          ("ratio_pa_p0", ratio_pa_p0), ("ratio_Ae_Astar", ratio_Ae_Astar)],
        isNumericValue p.2 = false ∧
        solve_cf gamma ratio_pe_p0 ratio_pa_p0 ratio_Ae_Astar =
          .error ⟨.typeKind, p.1 ++ " must be numeric"⟩ := by
  constructor
  · intro gamma Rs T0 h
    rcases typeCheck_some_of_mem _ h with ⟨p, hmem, hfalse, heq⟩
    exact ⟨p, hmem, hfalse,
      solve_cstar_eq_error (by rw [validate_cstar, heq, firstErr_some_left])⟩
  · intro gamma pe pa ar h
    rcases typeCheck_some_of_mem _ h with ⟨p, hmem, hfalse, heq⟩
    exact ⟨p, hmem, hfalse,
      solve_cf_eq_error (by rw [validate_cf, heq, firstErr_some_left])⟩

theorem claim_C6_witness :
    ∃ p ∈ [("gamma", [Elem.txt ("hot")]), ("Rs", [Elem.num 350]),
        ("T0", [Elem.num 3500])],
      isNumericValue p.2 = false ∧
      solve_cstar [Elem.txt ("hot")] [Elem.num 350] [Elem.num 3500] =
        .error ⟨.typeKind, p.1 ++ " must be numeric"⟩ :=
  claim_C6_type_error_names_argument.1 [Elem.txt ("hot")] [Elem.num 350] [Elem.num 3500]
    ⟨("gamma", [Elem.txt ("hot")]), by simp, by simp [isNumericValue, Elem.isNum]⟩

/-- Claim C7: every element of a value returned by `solve_cstar` is
non-negative (in particular this holds for every valid input, where the
call does return a value). -/
theorem claim_C7_cstar_nonneg (gamma Rs T0 : Value) (ys : List ℝ)
    (h : solve_cstar gamma Rs T0 = .ok ys) : ∀ y ∈ ys, 0 ≤ y := by
  intro y hy
  unfold solve_cstar at h
  split at h
  · exact absurd h (by simp)
  · dsimp only at h
    split at h
    · rw [Except.ok.injEq] at h
      subst h
      simp only [List.mem_map] at hy
      obtain ⟨i, _, rfl⟩ := hy
      unfold cstar_formula
      exact Real.sqrt_nonneg _
    · exact absurd h (by simp)

theorem claim_C7_witness : 0 ≤ cstar_formula ((1.2:ℚ):ℝ) ((350:ℚ):ℝ) ((3500:ℚ):ℝ) :=
  claim_C7_cstar_nonneg [Elem.num 1.2] [Elem.num 350] [Elem.num 3500] _
    (solve_cstar_scalar (by norm_num) (by norm_num) (by norm_num) (by norm_num))
    _ (by simp)

/-- Claim C8: the two solvers are deterministic and stateless: in any
sequence of API calls, the result of a call is exactly `runCall` of that
call, independent of which calls precede or follow it; in particular two
calls with identical inputs return identical results regardless of call
order. -/
theorem claim_C8_deterministic_trace (pre1 post1 pre2 post2 : List ApiCall)
    (c : ApiCall) :
    (runTrace (pre1 ++ c :: post1))[pre1.length]? = some (runCall c)
    ∧ (runTrace (pre1 ++ c :: post1))[pre1.length]?
        = (runTrace (pre2 ++ c :: post2))[pre2.length]? := by
  have key : ∀ pre post : List ApiCall,
      (runTrace (pre ++ c :: post))[pre.length]? = some (runCall c) := by
    intro pre post
    rw [runTrace, List.map_append, List.getElem?_append_right (by simp)]
    simp
  exact ⟨key pre1 post1, (key pre1 post1).trans (key pre2 post2).symm⟩

/-- Claim C1: for every `gamma` in (1, 1.8) (with 1.8 = 9/5), `Rs > 0` and
`T0 > 0`, `solve_cstar` returns
`sqrt((1/gamma) * ((gamma+1)/2)^((gamma+1)/(gamma-1)) * Rs * T0)`, and at
`(1.2, 350, 3500)` the returned value equals `1706.6214` to relative
tolerance `1e-7`. -/
theorem claim_C1_solve_cstar_formula :
    (∀ γ r t : ℚ, 1 < γ → γ < 9/5 → 0 < r → 0 < t →
      solve_cstar [.num γ] [.num r] [.num t] =
        .ok [Real.sqrt ((1 / (γ:ℝ)) * (((γ:ℝ) + 1) / 2) ^ (((γ:ℝ) + 1) / ((γ:ℝ) - 1))
          * (r:ℝ) * (t:ℝ))])
    ∧ ∃ y : ℝ, solve_cstar [.num 1.2] [.num 350] [.num 3500] = .ok [y]
        ∧ |y - 1706.6214| ≤ 1706.6214 * (1/10^7) := by
  constructor
  · intro γ r t h1 h2 hr ht
    simpa [cstar_formula] using solve_cstar_scalar h1 h2 hr ht
  · refine ⟨cstar_formula ((1.2:ℚ):ℝ) ((350:ℚ):ℝ) ((3500:ℚ):ℝ),
      solve_cstar_scalar (by norm_num) (by norm_num) (by norm_num) (by norm_num), ?_⟩
    have hv : cstar_formula ((1.2:ℚ):ℝ) ((350:ℚ):ℝ) ((3500:ℚ):ℝ)
        = Real.sqrt (13980271859939/4800000 : ℝ) := by
      rw [cstar_formula]
      have he : (((1.2:ℚ):ℝ) + 1) / (((1.2:ℚ):ℝ) - 1) = ((11:ℕ):ℝ) := by norm_num
      rw [he, Real.rpow_natCast]
      norm_num
    rw [hv]
    have hub : Real.sqrt (13980271859939/4800000 : ℝ) ≤ 1706.6214 * (1 + 1/10^7) := by
      rw [show (1706.6214 * (1 + 1/10^7) : ℝ)
          = Real.sqrt ((1706.6214 * (1 + 1/10^7))^2) from (Real.sqrt_sq (by norm_num)).symm]
      exact Real.sqrt_le_sqrt (by norm_num)
    have hlb : (1706.6214 * (1 - 1/10^7) : ℝ) ≤ Real.sqrt (13980271859939/4800000 : ℝ) :=
      Real.le_sqrt_of_sq_le (by norm_num)
    rw [abs_le]
    constructor <;> nlinarith [hub, hlb]

theorem claim_C1_witness :
    solve_cstar [.num 1.2] [.num 350] [.num 3500] =
      .ok [Real.sqrt ((1 / ((1.2:ℚ):ℝ)) * ((((1.2:ℚ):ℝ) + 1) / 2)
        ^ ((((1.2:ℚ):ℝ) + 1) / (((1.2:ℚ):ℝ) - 1)) * ((350:ℚ):ℝ) * ((3500:ℚ):ℝ))] :=
  claim_C1_solve_cstar_formula.1 1.2 350 3500
    (by norm_num) (by norm_num) (by norm_num) (by norm_num)

/-- Claim C2 as stated is false on the code and the code contradicts its own
test: at `(1.2, 0.0125, 0.02, 10)` the code returns the square root of the
radicand that includes the pressure-thrust term
`(ratio_pe_p0 - ratio_pa_p0) * ratio_Ae_Astar`; that value is at least 1.59,
so it is not within relative tolerance 1e-7 of the 1.5423079 expected by the
specification and by the repository test `test_solve_cf_scalar` (which is
the value of the standard formula with the pressure-thrust term added
outside the square root). -/
theorem claim_C2_code_bug_value :
    solve_cf [.num 1.2] [.num 0.0125] [.num 0.02] [.num 10] =
      .ok [cf_formula ((1.2:ℚ):ℝ) ((0.0125:ℚ):ℝ) ((0.02:ℚ):ℝ) ((10:ℚ):ℝ)]
    ∧ |cf_formula ((1.2:ℚ):ℝ) ((0.0125:ℚ):ℝ) ((0.02:ℚ):ℝ) ((10:ℚ):ℝ) - 1.5423079|
        > 1.5423079 * (1/10^7) := by
  constructor
  · exact solve_cf_scalar (by norm_num) (by norm_num) (by norm_num) (by norm_num)
      (by norm_num) (by norm_num) (by norm_num)
  · have h159 : (1.59 : ℝ)
        ≤ cf_formula ((1.2:ℚ):ℝ) ((0.0125:ℚ):ℝ) ((0.02:ℚ):ℝ) ((10:ℚ):ℝ) := by
      rw [cf_formula]
      have hu_le : ((1/80:ℝ)) ^ ((1/6:ℝ)) ≤ (240873121/500000000 : ℝ) := by
        have hb6 : ((1/80:ℝ)) ≤ (240873121/500000000 : ℝ) ^ (6:ℕ) := by norm_num
        have hmono : ((1/80:ℝ)) ^ ((1/6:ℝ))
            ≤ ((240873121/500000000 : ℝ) ^ (6:ℕ)) ^ ((1/6:ℝ)) :=
          Real.rpow_le_rpow (by norm_num) hb6 (by norm_num)
        have hroot : (((240873121/500000000 : ℝ) ^ (6:ℕ))) ^ ((1/6:ℝ))
            = (240873121/500000000 : ℝ) := by
          rw [← Real.rpow_natCast (240873121/500000000 : ℝ) 6,
            ← Real.rpow_mul (by norm_num)]
          norm_num
        rw [hroot] at hmono
        exact hmono
      have hval : cf_radicand ((1.2:ℚ):ℝ) ((0.0125:ℚ):ℝ) ((0.02:ℚ):ℝ) ((10:ℚ):ℝ)
          = (72/5 : ℝ) * (10/11) ^ (11:ℕ) * (1 - ((1/80:ℝ)) ^ ((1/6:ℝ))) - 3/40 := by
        rw [cf_radicand]
        have he : (((1.2:ℚ):ℝ) + 1) / (((1.2:ℚ):ℝ) - 1) = ((11:ℕ):ℝ) := by norm_num
        have he2 : (((1.2:ℚ):ℝ) - 1) / ((1.2:ℚ):ℝ) = (1/6 : ℝ) := by norm_num
        rw [he, he2, Real.rpow_natCast]
        norm_num
        ring
      refine Real.le_sqrt_of_sq_le ?_
      rw [hval]
      nlinarith [hu_le]
    rw [abs_of_nonneg (by norm_num; linarith)]
    norm_num
    linarith

/-- Claim C9: a domain-valid input of `solve_cf` whose radicand (the
expression under the square root) is negative raises no error: validation
passes and the call returns a value: in this embedding `Real.sqrt` of the
negative radicand, standing in for the floating-point not-a-number. -/
theorem claim_C9_negative_radicand_no_error (γ pe pa ar : ℚ)
    (h1 : 1 < γ) (h2 : γ < 9/5) (hpe0 : 0 ≤ pe) (hpe1 : pe < 1)
    (hpa0 : 0 ≤ pa) (hpa1 : pa < 1) (har : 1 ≤ ar)
    (hneg : cf_radicand (γ:ℝ) (pe:ℝ) (pa:ℝ) (ar:ℝ) < 0) :
    solve_cf [.num γ] [.num pe] [.num pa] [.num ar] =
      .ok [cf_formula (γ:ℝ) (pe:ℝ) (pa:ℝ) (ar:ℝ)] :=
  solve_cf_scalar h1 h2 hpe0 hpe1 hpa0 hpa1 har

theorem claim_C9_witness :
    cf_radicand ((1.2:ℚ):ℝ) ((0:ℚ):ℝ) ((0.99:ℚ):ℝ) ((100:ℚ):ℝ) < 0 ∧
    solve_cf [.num 1.2] [.num 0] [.num 0.99] [.num 100] =
      .ok [cf_formula ((1.2:ℚ):ℝ) ((0:ℚ):ℝ) ((0.99:ℚ):ℝ) ((100:ℚ):ℝ)] := by
  have hneg : cf_radicand ((1.2:ℚ):ℝ) ((0:ℚ):ℝ) ((0.99:ℚ):ℝ) ((100:ℚ):ℝ) < 0 := by
    rw [cf_radicand]
    have he : (((1.2:ℚ):ℝ) + 1) / (((1.2:ℚ):ℝ) - 1) = ((11:ℕ):ℝ) := by norm_num
    have he2 : (((1.2:ℚ):ℝ) - 1) / ((1.2:ℚ):ℝ) = (1/6 : ℝ) := by norm_num
    have hz : ((0:ℚ):ℝ) = (0:ℝ) := by norm_num
    rw [he, he2, hz, Real.zero_rpow (by norm_num), Real.rpow_natCast]
    norm_num
  exact ⟨hneg, claim_C9_negative_radicand_no_error 1.2 0 0.99 100
    (by norm_num) (by norm_num) (by norm_num) (by norm_num) (by norm_num)
    (by norm_num) (by norm_num) hneg⟩

/-- Claim C10: `solve_cstar` depends on `Rs` and `T0` only through their
product: on the valid domain the result is unchanged whenever `Rs*T0` is
unchanged, and in particular swapping `Rs` and `T0` leaves it unchanged. -/
theorem claim_C10_product_invariance (γ r t r2 t2 : ℚ)
    (h1 : 1 < γ) (h2 : γ < 9/5) (hr : 0 < r) (ht : 0 < t)
    (hr2 : 0 < r2) (ht2 : 0 < t2) (hprod : r * t = r2 * t2) :
    solve_cstar [.num γ] [.num r] [.num t] = solve_cstar [.num γ] [.num r2] [.num t2]
    ∧ solve_cstar [.num γ] [.num r] [.num t] = solve_cstar [.num γ] [.num t] [.num r] := by
  have key : ∀ a b c d : ℚ, 0 < a → 0 < b → 0 < c → 0 < d → a * b = c * d →
      solve_cstar [.num γ] [.num a] [.num b] = solve_cstar [.num γ] [.num c] [.num d] := by
    intro a b c d ha hb hc hd hab
    rw [solve_cstar_scalar h1 h2 ha hb, solve_cstar_scalar h1 h2 hc hd]
    have habR : ((a:ℝ)) * (b:ℝ) = ((c:ℝ)) * (d:ℝ) := by exact_mod_cast hab
    have hf : cstar_formula (γ:ℝ) (a:ℝ) (b:ℝ) = cstar_formula (γ:ℝ) (c:ℝ) (d:ℝ) := by
      rw [cstar_formula, cstar_formula]
      congr 1
      linear_combination (1 / (γ:ℝ)) * (((γ:ℝ) + 1) / 2) ^ (((γ:ℝ) + 1) / ((γ:ℝ) - 1)) * habR
    rw [hf]
  exact ⟨key r t r2 t2 hr ht hr2 ht2 hprod, key r t t r hr ht ht hr (mul_comm r t)⟩

theorem claim_C10_witness :
    (solve_cstar [.num 1.2] [.num 350] [.num 3500]
      = solve_cstar [.num 1.2] [.num 700] [.num 1750])
    ∧ solve_cstar [.num 1.2] [.num 350] [.num 3500]
      = solve_cstar [.num 1.2] [.num 3500] [.num 350] :=
  claim_C10_product_invariance 1.2 350 3500 700 1750 (by norm_num) (by norm_num)
    (by norm_num) (by norm_num) (by norm_num) (by norm_num) (by norm_num)

end RocketRelations
